import Mathlib

/-!
Shallow embedding of the Greybus connection lifecycle (connection.c) and the
parts of interface handling its claims need.

Conventions of the embedding:
* A `Connection` record mirrors the fields of `struct gb_connection` the code
  reads or writes: identifiers, optional owning interface/bundle (interfaces
  and bundles are identified by their ids), lifecycle state, installed
  handler, and the insertion-ordered pending-operation list (head = oldest,
  tail = most recently added, matching `list_add_tail` insertion by the
  operation layer; the insertion side lives outside this file's sources and
  follows the spec's "insertion-ordered" description).
* Calls into the external layers (transport driver, SVC coordinator, peer
  control channel, operation layer, kref) are recorded as `Event`s in an
  output trace, and their success/failure is supplied by an `Env` of return
  codes.  Two ghost booleans (`hdCportEnabled`, `svcRouteCreated`) track
  whether the transport channel is enabled and whether the coordinator route
  exists, set exactly where the code performs the corresponding calls.
* Fallible C functions returning `int` become functions returning the errno
  as an `Int` (0 = success); functions returning pointers return `Option`.
-/

/-- Linux errno used by the teardown paths (`-ESHUTDOWN` in the source). -/
def ESHUTDOWN : Int := 108

/-- `GB_CONNECTION_STATE_*`: the connection lifecycle states. -/
inductive ConnState where
  | Disabled
  | EnabledTx
  | Enabled
deriving DecidableEq, Repr

/-- The slice of `struct gb_operation` this file reads: an identity and the
incoming/outgoing tag (`gb_operation_is_incoming`). -/
structure Operation where
  id : Nat
  incoming : Bool
deriving DecidableEq, Repr

/-- Observable calls into the external layers, recorded in traces. -/
inductive Event where
  | cportEnable
  | cportDisable
  | svcCreate
  | svcDestroy
  | controlConnected
  | controlDisconnected
  | cancelOp (id : Nat) (incoming : Bool) (errno : Int)
  | diagnostic
  | krefGet
  | krefPut
  | recvDeliver (cport : Nat) (length : Nat)
  | idaGet (id : Nat)
  | idaRemove (id : Nat)
  | mutexLock
  | wqDestroy
deriving DecidableEq, Repr

/-- The slice of `struct gb_connection` used by connection.c.  `intf` holds
the owning interface's id (`None` for static connections), `bundle` the
owning bundle's id.  `isControlConnection` models the pointer identity test
`connection == connection->intf->control->connection`.  `hdCportEnabled` and
`svcRouteCreated` are ghost state recording the effect of the external
transport/coordinator calls. -/
structure Connection where
  hd_cport_id : Nat
  intf_cport_id : Nat
  intf : Option Nat
  bundle : Option Nat
  isControlConnection : Bool
  state : ConnState
  handler : Option Nat
  operations : List Operation
  hdCportEnabled : Bool
  svcRouteCreated : Bool
  name : String
deriving DecidableEq, Repr

/-- `gb_connection_is_static`: a connection with no owning interface. -/
def gb_connection_is_static (c : Connection) : Bool :=
  c.intf.isNone

/-- Return codes the external layers produce, one per outward call made by
enable/disable (0 = success; the transport wrapper's "driver has no hook"
case is the success case of this contract). -/
structure Env where
  cportEnableRet : Int
  svcCreateRet : Int
  controlConnectedRet : Int
  controlDisconnectedRet : Int
deriving Repr

/-- `gb_connection_init_name`: derive the label `"hd/intf:cport"` (interface
and cport parts are 0 when there is no owning interface). -/
def gb_connection_init_name (c : Connection) : Connection :=
  let intf_id : Nat := match c.intf with | some i => i | none => 0
  let cport_id : Nat := match c.intf with | some _ => c.intf_cport_id | none => 0
  { c with name :=
      toString c.hd_cport_id ++ "/" ++ toString intf_id ++ ":" ++ toString cport_id }

/-- `gb_connection_hd_cport_enable`: ask the transport driver to enable the
local channel; on failure log a diagnostic and propagate the error. -/
def gb_connection_hd_cport_enable (env : Env) (c : Connection) :
    Connection × List Event × Int :=
  if env.cportEnableRet = 0 then
    ({ c with hdCportEnabled := true }, [Event.cportEnable], 0)
  else
    (c, [Event.cportEnable, Event.diagnostic], env.cportEnableRet)

/-- `gb_connection_hd_cport_disable`: ask the transport driver to disable the
local channel (void, unconditional). -/
def gb_connection_hd_cport_disable (c : Connection) : Connection × List Event :=
  ({ c with hdCportEnabled := false }, [Event.cportDisable])

/-- `gb_connection_svc_connection_create`: ask the SVC coordinator to create
the route; skipped entirely for static connections; on failure log and
propagate. -/
def gb_connection_svc_connection_create (env : Env) (c : Connection) :
    Connection × List Event × Int :=
  if gb_connection_is_static c then
    (c, [], 0)
  else if env.svcCreateRet = 0 then
    ({ c with svcRouteCreated := true }, [Event.svcCreate], 0)
  else
    (c, [Event.svcCreate, Event.diagnostic], env.svcCreateRet)

/-- `gb_connection_svc_connection_destroy`: ask the SVC coordinator to
destroy the route; skipped for static connections (void). -/
def gb_connection_svc_connection_destroy (c : Connection) : Connection × List Event :=
  if gb_connection_is_static c then
    (c, [])
  else
    ({ c with svcRouteCreated := false }, [Event.svcDestroy])

/-- `gb_connection_control_connected`: notify the peer control channel that
the cport is connected; skipped for static connections and when the
connection is itself the interface's control connection; on failure log and
propagate. -/
def gb_connection_control_connected (env : Env) (c : Connection) :
    List Event × Int :=
  if gb_connection_is_static c then
    ([], 0)
  else if c.isControlConnection then
    ([], 0)
  else if env.controlConnectedRet = 0 then
    ([Event.controlConnected], 0)
  else
    ([Event.controlConnected, Event.diagnostic], env.controlConnectedRet)

/-- `gb_connection_control_disconnected`: notify the peer control channel
that the cport is disconnected; skipped for static connections and for the
control connection itself; a failure is only logged (void). -/
def gb_connection_control_disconnected (env : Env) (c : Connection) :
    List Event :=
  if gb_connection_is_static c then
    []
  else if c.isControlConnection then
    []
  else if env.controlDisconnectedRet = 0 then
    [Event.controlDisconnected]
  else
    [Event.controlDisconnected, Event.diagnostic]

/-- `gb_connection_cancel_operations`: while the pending set is non-empty,
take the last entry (`list_last_entry`, most recently added), cancel it with
`errno` (incoming via the in-cancel path, outgoing via the general path);
the cancelled operation removes itself from the set, so the loop resumes on
`dropLast`.  Returns the remaining set and the cancellations issued. -/
def gb_connection_cancel_operations (errno : Int) (ops : List Operation) :
    List Operation × List Event :=
  match ops with
  | [] => (ops, [])
  | op :: rest =>
      let operation := (op :: rest).getLast (List.cons_ne_nil op rest)
      let next := gb_connection_cancel_operations errno (op :: rest).dropLast
      (next.1, Event.cancelOp operation.id operation.incoming errno :: next.2)
termination_by ops.length
decreasing_by
  simp [List.length_dropLast]

/-- `gb_connection_flush_incoming_operations`: while the pending set is
non-empty, scan it from the head (`list_for_each_entry`) for the first
operation tagged incoming; if none is found the loop breaks, otherwise that
operation is cancelled with `errno` and removes itself from the set, and the
scan restarts.  Returns the remaining set and the cancellations issued. -/
def gb_connection_flush_incoming_operations (errno : Int) (ops : List Operation) :
    List Operation × List Event :=
  match hrest : ops.dropWhile (fun o => !o.incoming) with
  | [] => (ops, [])
  | operation :: rest =>
      let next := gb_connection_flush_incoming_operations errno
        (ops.takeWhile (fun o => !o.incoming) ++ rest)
      (next.1, Event.cancelOp operation.id operation.incoming errno :: next.2)
termination_by ops.length
decreasing_by
  have h := List.takeWhile_append_dropWhile (p := fun o => !o.incoming) (l := ops)
  rw [hrest] at h
  calc (ops.takeWhile (fun o => !o.incoming) ++ rest).length
      < (ops.takeWhile (fun o => !o.incoming) ++ operation :: rest).length := by
        simp
    _ = ops.length := by rw [h]

/-- `gb_connection_enable`: the enable half of the state machine, including
its reverse-order error cleanup (`err_svc_destroy` / `err_hd_cport_disable`
labels in the source). -/
def gb_connection_enable (env : Env) (c : Connection) (handler : Option Nat) :
    Connection × List Event × Int :=
  if c.state = ConnState.Enabled then
    (c, [], 0)
  else if c.state = ConnState.EnabledTx then
    match handler with
    | none => (c, [], 0)
    | some _ => ({ c with handler := handler, state := ConnState.Enabled }, [], 0)
  else
    let r1 := gb_connection_hd_cport_enable env c
    if r1.2.2 ≠ 0 then
      (r1.1, r1.2.1, r1.2.2)
    else
      let r2 := gb_connection_svc_connection_create env r1.1
      if r2.2.2 ≠ 0 then
        let r3 := gb_connection_hd_cport_disable r2.1
        (r3.1, r1.2.1 ++ r2.2.1 ++ r3.2, r2.2.2)
      else
        let c3 : Connection := { r2.1 with
          handler := handler,
          state := if handler.isSome then ConnState.Enabled else ConnState.EnabledTx }
        let r4 := gb_connection_control_connected env c3
        if r4.2 ≠ 0 then
          let cancelled := gb_connection_cancel_operations (-ESHUTDOWN) c3.operations
          let c4 : Connection := { c3 with
            state := ConnState.Disabled,
            operations := cancelled.1,
            handler := none }
          let r5 := gb_connection_svc_connection_destroy c4
          let r6 := gb_connection_hd_cport_disable r5.1
          (r6.1, r1.2.1 ++ r2.2.1 ++ r4.1 ++ cancelled.2 ++ r5.2 ++ r6.2, r4.2)
        else
          (c3, r1.2.1 ++ r2.2.1 ++ r4.1, 0)

/-- `gb_connection_disable_rx`: from Enabled, move to Enabled-Tx and drain
incoming operations with `-ESHUTDOWN`, clearing the handler; from any other
state, do nothing. -/
def gb_connection_disable_rx (c : Connection) : Connection × List Event :=
  if c.state ≠ ConnState.Enabled then
    (c, [])
  else
    let flushed := gb_connection_flush_incoming_operations (-ESHUTDOWN) c.operations
    ({ c with state := ConnState.EnabledTx,
              operations := flushed.1,
              handler := none }, flushed.2)

/-- `gb_connection_disable`: from Disabled do nothing; otherwise notify the
peer control channel, cancel all operations with `-ESHUTDOWN` while forcing
the state to Disabled and clearing the handler, then destroy the coordinator
route and disable the transport channel. -/
def gb_connection_disable (env : Env) (c : Connection) : Connection × List Event :=
  if c.state = ConnState.Disabled then
    (c, [])
  else
    let e1 := gb_connection_control_disconnected env c
    let cancelled := gb_connection_cancel_operations (-ESHUTDOWN) c.operations
    let c1 : Connection := { c with
      state := ConnState.Disabled,
      operations := cancelled.1,
      handler := none }
    let r2 := gb_connection_svc_connection_destroy c1
    let r3 := gb_connection_hd_cport_disable r2.1
    (r3.1, e1 ++ cancelled.2 ++ r2.2 ++ r3.2)

/-- The per-host-device state create/destroy/dispatch act on: declared
channel count, the cport-id allocator (`hd->cport_id_map`, modelled as the
list of allocated ids), the registry index `hd->connections`, and the
by-bundle index (pairs of bundle id and the connection's local id). -/
structure HostState where
  num_cports : Nat
  cport_id_map : List Nat
  connections : List Connection
  bundle_conns : List (Nat × Nat)
deriving DecidableEq, Repr

/-- `ida_simple_get`: hand out the smallest free id in `[start, stop)`, or
fail when the range is exhausted. -/
def ida_simple_get (used : List Nat) (start stop : Nat) : Option Nat :=
  (List.range' start (stop - start)).find? (fun i => !(used.contains i))

/-- `ida_simple_remove`: release an id back to the allocator. -/
def ida_simple_remove (used : List Nat) (id : Nat) : List Nat :=
  used.erase id

/-- `gb_connection_intf_find`: scan `hd->connections` for a connection bound
to this interface and remote cport id (used for duplicate detection, under
the global create/destroy mutex). -/
def gb_connection_intf_find (conns : List Connection) (intf : Nat)
    (cport_id : Nat) : Option Connection :=
  conns.find? (fun c => c.intf == some intf && c.intf_cport_id == cport_id)

/-- `gb_connection_hd_find`: scan `hd->connections` for the connection with
this local cport id, taking a reference on it under the registry lock before
returning. -/
def gb_connection_hd_find (conns : List Connection) (cport_id : Nat) :
    Option Connection × List Event :=
  match conns.find? (fun c => c.hd_cport_id == cport_id) with
  | some c => (some c, [Event.krefGet])
  | none => (none, [])

/-- `greybus_data_rcvd`: the data-receive dispatcher.  Look the connection up
by local id; if none exists, log one diagnostic and drop the payload;
otherwise hand the payload to the operation layer's receive entry point and
drop the reference taken by the lookup. -/
def greybus_data_rcvd (conns : List Connection) (cport_id : Nat)
    (length : Nat) : List Connection × List Event :=
  match gb_connection_hd_find conns cport_id with
  | (none, evs) => (conns, evs ++ [Event.diagnostic])
  | (some c, evs) =>
      (conns, evs ++ [Event.recvDeliver c.hd_cport_id length, Event.krefPut])

/-- Allocation outcomes of the two fallible in-kernel allocations create
performs (`kzalloc` of the object, `alloc_workqueue` of the per-connection
work context). -/
structure CreateEnv where
  kzalloc_ok : Bool
  alloc_workqueue_ok : Bool
deriving Repr

/-- The section of `gb_connection_create` performed under the global
`gb_connection_mutex`: reject a duplicate (interface, remote id) pair,
reserve a local id, allocate and initialize the object, create its workqueue
(rolling the id reservation back on failure), and publish into both registry
indices. -/
def gb_connection_create_locked (env : CreateEnv) (hd : HostState)
    (ida_start ida_end : Nat) (intf : Option Nat) (bundle : Option Nat)
    (cport_id : Nat) : HostState × Option Connection × List Event :=
  if (match intf with
      | some i => (gb_connection_intf_find hd.connections i cport_id).isSome
      | none => false) then
    (hd, none, [Event.diagnostic])
  else
    match ida_simple_get hd.cport_id_map ida_start ida_end with
    | none => (hd, none, [])
    | some new_id =>
      if env.kzalloc_ok = false then
        ({ hd with cport_id_map :=
            ida_simple_remove (new_id :: hd.cport_id_map) new_id }, none,
         [Event.idaGet new_id, Event.idaRemove new_id])
      else
        let connection := gb_connection_init_name {
          hd_cport_id := new_id,
          intf_cport_id := cport_id,
          intf := intf,
          bundle := bundle,
          isControlConnection := false,
          state := ConnState.Disabled,
          handler := none,
          operations := [],
          hdCportEnabled := false,
          svcRouteCreated := false,
          name := "" }
        if env.alloc_workqueue_ok = false then
          ({ hd with cport_id_map :=
              ida_simple_remove (new_id :: hd.cport_id_map) new_id }, none,
           [Event.idaGet new_id, Event.idaRemove new_id])
        else
          ({ hd with
              cport_id_map := new_id :: hd.cport_id_map,
              connections := connection :: hd.connections,
              bundle_conns := match bundle with
                | some b => (b, new_id) :: hd.bundle_conns
                | none => hd.bundle_conns },
           some connection, [Event.idaGet new_id])

/-- `gb_connection_create`: validate the requested local id range (dynamic
when negative, otherwise it must lie below the channel count), then run the
serialized creation section. -/
def gb_connection_create (env : CreateEnv) (hd : HostState) (hd_cport_id : Int)
    (intf : Option Nat) (bundle : Option Nat) (cport_id : Nat) :
    HostState × Option Connection × List Event :=
  if hd_cport_id < 0 then
    gb_connection_create_locked env hd 0 hd.num_cports intf bundle cport_id
  else if hd_cport_id < (hd.num_cports : Int) then
    gb_connection_create_locked env hd hd_cport_id.toNat (hd_cport_id.toNat + 1)
      intf bundle cport_id
  else
    (hd, none, [Event.diagnostic])

/-- `gb_connection_create_static`: static flavor (no interface, no bundle,
remote id 0, caller-chosen local id). -/
def gb_connection_create_static (env : CreateEnv) (hd : HostState)
    (hd_cport_id : Nat) : HostState × Option Connection × List Event :=
  gb_connection_create env hd hd_cport_id none none 0

/-- `gb_connection_create_control`: control flavor (interface given, no
bundle, remote id 0, dynamic local id). -/
def gb_connection_create_control (env : CreateEnv) (hd : HostState)
    (intf : Nat) : HostState × Option Connection × List Event :=
  gb_connection_create env hd (-1) (some intf) none 0

/-- `gb_connection_create_dynamic`: dynamic flavor (interface and bundle
given, explicit remote id, dynamic local id). -/
def gb_connection_create_dynamic (env : CreateEnv) (hd : HostState)
    (intf : Nat) (bundle : Nat) (cport_id : Nat) :
    HostState × Option Connection × List Event :=
  gb_connection_create env hd (-1) (some intf) (some bundle) cport_id

/-- `gb_connection_destroy`: a null connection returns immediately;
otherwise, under the global mutex, unlink from both registry indices,
destroy the workqueue, release the local id, and drop the creation
reference. -/
def gb_connection_destroy (hd : HostState) (connection : Option Connection) :
    HostState × List Event :=
  match connection with
  | none => (hd, [])
  | some c =>
      ({ hd with
          connections :=
            hd.connections.filter (fun x => !(x.hd_cport_id == c.hd_cport_id)),
          bundle_conns :=
            hd.bundle_conns.filter (fun p => !(p.2 == c.hd_cport_id)),
          cport_id_map := ida_simple_remove hd.cport_id_map c.hd_cport_id },
       [Event.mutexLock, Event.wqDestroy, Event.idaRemove c.hd_cport_id,
        Event.krefPut])

/-! ### Characterizations of the two cancellation loops -/

/-- Elements surviving `takeWhile` satisfy the predicate. -/
theorem mem_takeWhile_sat {p : Operation → Bool} {l : List Operation}
    {a : Operation} (h : a ∈ l.takeWhile p) : p a = true := by
  induction l with
  | nil => simp [List.takeWhile] at h
  | cons x xs ih =>
      rw [List.takeWhile_cons] at h
      by_cases hx : p x = true
      · simp [hx] at h
        rcases h with h | h
        · subst h; exact hx
        · exact ih h
      · simp [hx] at h

/-- The head of a non-empty `dropWhile` result fails the predicate. -/
theorem dropWhile_head_false {p : Operation → Bool} {l r : List Operation}
    {a : Operation} (h : l.dropWhile p = a :: r) : p a = false := by
  induction l with
  | nil => simp [List.dropWhile] at h
  | cons x xs ih =>
      rw [List.dropWhile_cons] at h
      by_cases hx : p x = true
      · simp [hx] at h; exact ih h
      · simp [hx] at h
        rcases h with ⟨h1, _⟩
        subst h1
        simpa using hx

/-- The full cancel empties the pending set and issues one cancellation per
operation, most recently added first (reverse insertion order). -/
theorem gb_connection_cancel_spec (errno : Int) (ops : List Operation) :
    gb_connection_cancel_operations errno ops =
      ([], ops.reverse.map (fun o => Event.cancelOp o.id o.incoming errno)) := by
  induction ops using gb_connection_cancel_operations.induct errno with
  | case1 => simp [gb_connection_cancel_operations]
  | case2 op rest ih =>
      rw [gb_connection_cancel_operations]
      simp only [ih]
      have hne : (op :: rest) ≠ [] := List.cons_ne_nil op rest
      conv_rhs => rw [← List.dropLast_append_getLast hne]
      simp

/-- The incoming-only drain keeps exactly the outgoing operations, in order,
and issues one cancellation per incoming operation in insertion order
(oldest first, since the scan restarts from the head each iteration). -/
theorem gb_connection_flush_spec (errno : Int) (ops : List Operation) :
    gb_connection_flush_incoming_operations errno ops =
      (ops.filter (fun o => !o.incoming),
       (ops.filter (fun o => o.incoming)).map
         (fun o => Event.cancelOp o.id o.incoming errno)) := by
  induction ops using gb_connection_flush_incoming_operations.induct errno with
  | case1 x h =>
      rw [gb_connection_flush_incoming_operations]
      split
      · have hall : ∀ o ∈ x, (!o.incoming) = true := by
          rw [← List.dropWhile_eq_nil_iff]; exact h
        rw [List.filter_eq_self.mpr hall]
        have : x.filter (fun o => o.incoming) = [] := by
          rw [List.filter_eq_nil_iff]
          intro o ho
          have := hall o ho
          simp at this
          simp [this]
        rw [this]
        simp
      · rename_i op rest heq
        rw [h] at heq
        exact absurd heq (by simp)
  | case2 x operation rest h ih =>
      rw [gb_connection_flush_incoming_operations]
      split
      · rename_i heq
        rw [h] at heq
        exact absurd heq (by simp)
      · rename_i op' rest' heq
        rw [h] at heq
        injection heq with h1 h2
        subst h1; subst h2
        simp only [ih]
        have hx : x.takeWhile (fun o => !o.incoming) ++ operation :: rest = x := by
          conv_rhs => rw [← List.takeWhile_append_dropWhile (p := fun o => !o.incoming) (l := x)]
          rw [h]
        have hop : operation.incoming = true := by
          have := dropWhile_head_false h
          simpa using this
        have htake : ∀ o ∈ x.takeWhile (fun o => !o.incoming), (!o.incoming) = true :=
          fun o ho => mem_takeWhile_sat ho
        simp only [Prod.mk.injEq]
        constructor
        · -- first components
          conv_rhs => rw [← hx]
          rw [List.filter_append, List.filter_append]
          rw [List.filter_eq_self.mpr htake]
          simp [hop]
        · -- second components
          conv_rhs => rw [← hx]
          rw [List.filter_append]
          have : (x.takeWhile (fun o => !o.incoming)).filter (fun o => o.incoming) = [] := by
            rw [List.filter_eq_nil_iff]
            intro o ho
            have := htake o ho
            simp at this
            simp [this]
          rw [this]
          simp [hop, List.filter_append]
          intro a ha
          have := htake a ha
          simpa using this

/-! ### Concrete objects used by the witnesses -/

/-- A static connection (no owning interface), Disabled, quiescent. -/
def sampleStatic : Connection :=
  { hd_cport_id := 5, intf_cport_id := 0, intf := none, bundle := none,
    isControlConnection := false, state := ConnState.Disabled, handler := none,
    operations := [], hdCportEnabled := false, svcRouteCreated := false,
    name := "5/0:0" }

/-- A dynamic connection, Enabled, with one incoming and one outgoing
pending operation (the incoming one older). -/
def sampleEnabled : Connection :=
  { hd_cport_id := 2, intf_cport_id := 3, intf := some 1, bundle := some 4,
    isControlConnection := false, state := ConnState.Enabled, handler := some 9,
    operations := [⟨0, true⟩, ⟨1, false⟩], hdCportEnabled := true,
    svcRouteCreated := true, name := "2/1:3" }

/-- An environment in which every external call succeeds. -/
def envOk : Env :=
  { cportEnableRet := 0, svcCreateRet := 0, controlConnectedRet := 0,
    controlDisconnectedRet := 0 }

/-! ### Claims -/

/-- C9: for every connection whose state is not Enabled, `disable_rx` is a
no-op: state, handler and pending-operation set are unchanged and no
operation is cancelled (empty trace). -/
theorem C9_disable_rx_noop (c : Connection)
    (h : c.state ≠ ConnState.Enabled) :
    gb_connection_disable_rx c = (c, []) := by
  simp [gb_connection_disable_rx, h]

/-- Witness for C9 at a concrete Disabled connection. -/
theorem C9_disable_rx_noop_witness :
    sampleStatic.state ≠ ConnState.Enabled ∧
    gb_connection_disable_rx sampleStatic = (sampleStatic, []) :=
  ⟨by decide, C9_disable_rx_noop sampleStatic (by decide)⟩

/-- C10: destroying a null connection pointer is a safe no-op: the host
state (registry indices and id allocator) is untouched and no call is made
(no lock taken, no reference dropped — empty trace). -/
theorem C10_destroy_null_noop (hd : HostState) :
    gb_connection_destroy hd none = (hd, []) := rfl

/-- C7: the data-receive dispatcher.  When no live connection has the local
id, the payload is dropped with exactly one diagnostic and the connection
set is untouched; when one is found, the trace is take-reference, deliver,
drop-reference. -/
theorem C7_data_rcvd_dispatch (conns : List Connection) (cport_id len : Nat) :
    ((∀ c ∈ conns, c.hd_cport_id ≠ cport_id) →
        greybus_data_rcvd conns cport_id len = (conns, [Event.diagnostic])) ∧
    (greybus_data_rcvd conns cport_id len).1 = conns ∧
    (∀ c, conns.find? (fun x => x.hd_cport_id == cport_id) = some c →
        (greybus_data_rcvd conns cport_id len).2 =
          [Event.krefGet, Event.recvDeliver c.hd_cport_id len, Event.krefPut]) := by
  refine ⟨?_, ?_, ?_⟩
  · intro h
    have hfind : conns.find? (fun x => x.hd_cport_id == cport_id) = none := by
      rw [List.find?_eq_none]
      intro x hx
      simpa using h x hx
    simp [greybus_data_rcvd, gb_connection_hd_find, hfind]
  · unfold greybus_data_rcvd gb_connection_hd_find
    cases conns.find? (fun x => x.hd_cport_id == cport_id) <;> simp
  · intro c hc
    simp [greybus_data_rcvd, gb_connection_hd_find, hc]

/-- Witness for C7: a miss drops the payload with one diagnostic; a hit
delivers between the reference get/put. -/
theorem C7_data_rcvd_dispatch_witness :
    greybus_data_rcvd [sampleStatic] 7 3 = ([sampleStatic], [Event.diagnostic]) ∧
    (greybus_data_rcvd [sampleStatic] 5 3).2 =
      [Event.krefGet, Event.recvDeliver 5 3, Event.krefPut] :=
  ⟨(C7_data_rcvd_dispatch [sampleStatic] 7 3).1 (by decide),
   (C7_data_rcvd_dispatch [sampleStatic] 5 3).2.2 sampleStatic (by decide)⟩

/-- C3: creating a connection for an (interface, remote id) pair that is
already bound fails with only a diagnostic: the host state — in particular
the id allocator — is unchanged and the trace holds no `idaGet`/`idaRemove`,
so no local id is reserved (or reserved and later released). -/
theorem C3_duplicate_rejected (env : CreateEnv) (hd : HostState)
    (hd_cport_id : Int) (i : Nat) (bundle : Option Nat) (cport_id : Nat)
    (hdup : ∃ c ∈ hd.connections, c.intf = some i ∧ c.intf_cport_id = cport_id) :
    gb_connection_create env hd hd_cport_id (some i) bundle cport_id =
      (hd, none, [Event.diagnostic]) := by
  obtain ⟨c, hc, hci, hcc⟩ := hdup
  have hfind : (gb_connection_intf_find hd.connections i cport_id).isSome = true := by
    unfold gb_connection_intf_find
    rw [List.find?_isSome]
    exact ⟨c, hc, by simp [hci, hcc]⟩
  unfold gb_connection_create gb_connection_create_locked
  by_cases h0 : hd_cport_id < 0
  · simp [h0, hfind]
  · by_cases h1 : hd_cport_id < (hd.num_cports : Int)
    · simp [h0, h1, hfind]
    · simp [h0, h1]

/-- Witness for C3: a duplicate dynamic create against a one-connection
registry fails cleanly. -/
theorem C3_duplicate_rejected_witness :
    gb_connection_create ⟨true, true⟩
        ⟨8, [2], [sampleEnabled], [(4, 2)]⟩ (-1) (some 1) (some 4) 3 =
      (⟨8, [2], [sampleEnabled], [(4, 2)]⟩, none, [Event.diagnostic]) :=
  C3_duplicate_rejected ⟨true, true⟩ ⟨8, [2], [sampleEnabled], [(4, 2)]⟩
    (-1) 1 (some 4) 3 ⟨sampleEnabled, by decide, by decide, by decide⟩

/-- Releasing the id just reserved restores the allocator exactly. -/
theorem release_reserved_id (hd : HostState) (new_id : Nat) :
    ({ hd with cport_id_map :=
        ida_simple_remove (new_id :: hd.cport_id_map) new_id } : HostState) = hd := by
  simp [ida_simple_remove]

/-- Under a failing workqueue allocation, the locked creation section always
fails with the host state unchanged, pairing any id reservation with its
release. -/
theorem create_locked_wq_fail (env : CreateEnv) (hd : HostState)
    (ida_start ida_end : Nat) (intf bundle : Option Nat) (cport_id : Nat)
    (hwq : env.alloc_workqueue_ok = false) :
    (gb_connection_create_locked env hd ida_start ida_end intf bundle cport_id).2.1
        = none ∧
    (gb_connection_create_locked env hd ida_start ida_end intf bundle cport_id).1
        = hd ∧
    (∀ n, Event.idaGet n ∈
        (gb_connection_create_locked env hd ida_start ida_end intf bundle cport_id).2.2 →
      Event.idaRemove n ∈
        (gb_connection_create_locked env hd ida_start ida_end intf bundle cport_id).2.2) := by
  rcases hr : gb_connection_create_locked env hd ida_start ida_end intf bundle cport_id
    with ⟨hd2, co, tr⟩
  simp only [hr]
  unfold gb_connection_create_locked at hr
  split at hr
  · simp only [Prod.mk.injEq] at hr
    obtain ⟨h1, h2, h3⟩ := hr
    subst h1; subst h2; subst h3
    exact ⟨rfl, rfl, by intro n hn; simp at hn⟩
  · split at hr
    · simp only [Prod.mk.injEq] at hr
      obtain ⟨h1, h2, h3⟩ := hr
      subst h1; subst h2; subst h3
      exact ⟨rfl, rfl, by intro n hn; simp at hn⟩
    · rename_i new_id hget
      split at hr
      · simp only [Prod.mk.injEq] at hr
        obtain ⟨h1, h2, h3⟩ := hr
        subst h1; subst h2; subst h3
        refine ⟨rfl, release_reserved_id hd new_id, ?_⟩
        intro n hn
        simp at hn
        simp [hn]
      · simp only [Prod.mk.injEq] at hr
        obtain ⟨h1, h2, h3⟩ := hr
        subst h1; subst h2; subst h3
        refine ⟨rfl, release_reserved_id hd new_id, ?_⟩
        intro n hn
        simp at hn
        simp [hn]

/-- C4: when the per-connection workqueue cannot be created, creation fails
atomically: the caller gets null, the host state (allocator and both
registry indices) is exactly as before — so nothing was published — and any
id reservation in the trace is paired with its release. -/
theorem C4_wq_failure_rolls_back (env : CreateEnv) (hd : HostState)
    (hd_cport_id : Int) (intf bundle : Option Nat) (cport_id : Nat)
    (hwq : env.alloc_workqueue_ok = false) :
    (gb_connection_create env hd hd_cport_id intf bundle cport_id).2.1 = none ∧
    (gb_connection_create env hd hd_cport_id intf bundle cport_id).1 = hd ∧
    (∀ n, Event.idaGet n ∈
        (gb_connection_create env hd hd_cport_id intf bundle cport_id).2.2 →
      Event.idaRemove n ∈
        (gb_connection_create env hd hd_cport_id intf bundle cport_id).2.2) := by
  unfold gb_connection_create
  by_cases h0 : hd_cport_id < 0
  · rw [if_pos h0]
    exact create_locked_wq_fail env hd 0 hd.num_cports intf bundle cport_id hwq
  · rw [if_neg h0]
    by_cases h1 : hd_cport_id < (hd.num_cports : Int)
    · rw [if_pos h1]
      exact create_locked_wq_fail env hd hd_cport_id.toNat (hd_cport_id.toNat + 1)
        intf bundle cport_id hwq
    · rw [if_neg h1]
      exact ⟨rfl, rfl, by intro n hn; simp at hn⟩

/-- Witness for C4: a dynamic create whose workqueue allocation fails rolls
back completely. -/
theorem C4_wq_failure_rolls_back_witness :
    (gb_connection_create ⟨true, false⟩ ⟨8, [], [], []⟩ (-1) (some 1) (some 4) 3).2.1
        = none ∧
    (gb_connection_create ⟨true, false⟩ ⟨8, [], [], []⟩ (-1) (some 1) (some 4) 3).1
        = ⟨8, [], [], []⟩ ∧
    (∀ n, Event.idaGet n ∈
        (gb_connection_create ⟨true, false⟩ ⟨8, [], [], []⟩ (-1) (some 1) (some 4) 3).2.2 →
      Event.idaRemove n ∈
        (gb_connection_create ⟨true, false⟩ ⟨8, [], [], []⟩ (-1) (some 1) (some 4) 3).2.2) :=
  C4_wq_failure_rolls_back ⟨true, false⟩ ⟨8, [], [], []⟩ (-1) (some 1) (some 4) 3 rfl

/-- C5: from Enabled, `disable_rx` moves to Enabled-Tx, clears the handler,
leaves no incoming-tagged operation in the pending set (each incoming
operation was cancelled with the shutdown error, in the trace), and keeps
every outgoing operation, in order and untouched. -/
theorem C5_disable_rx_drains_incoming (c : Connection)
    (h : c.state = ConnState.Enabled) :
    (gb_connection_disable_rx c).1.state = ConnState.EnabledTx ∧
    (gb_connection_disable_rx c).1.handler = none ∧
    (∀ op ∈ (gb_connection_disable_rx c).1.operations, op.incoming = false) ∧
    (gb_connection_disable_rx c).1.operations =
      c.operations.filter (fun o => !o.incoming) ∧
    (gb_connection_disable_rx c).2 =
      (c.operations.filter (fun o => o.incoming)).map
        (fun o => Event.cancelOp o.id o.incoming (-ESHUTDOWN)) := by
  have hne : ¬ c.state ≠ ConnState.Enabled := by simp [h]
  unfold gb_connection_disable_rx
  rw [if_neg hne]
  simp only [gb_connection_flush_spec]
  refine ⟨by trivial, by trivial, ?_, by trivial, by trivial⟩
  intro op hop
  have := List.of_mem_filter hop
  simpa using this

/-- Witness for C5 on a connection holding one incoming and one outgoing
operation. -/
theorem C5_disable_rx_drains_incoming_witness :
    (gb_connection_disable_rx sampleEnabled).1.state = ConnState.EnabledTx ∧
    (gb_connection_disable_rx sampleEnabled).1.handler = none ∧
    (∀ op ∈ (gb_connection_disable_rx sampleEnabled).1.operations,
        op.incoming = false) ∧
    (gb_connection_disable_rx sampleEnabled).1.operations =
      sampleEnabled.operations.filter (fun o => !o.incoming) ∧
    (gb_connection_disable_rx sampleEnabled).2 =
      (sampleEnabled.operations.filter (fun o => o.incoming)).map
        (fun o => Event.cancelOp o.id o.incoming (-ESHUTDOWN)) :=
  C5_disable_rx_drains_incoming sampleEnabled rfl

/-- C6 counterexample: with two incoming operations pending (id 0 inserted
first, id 1 most recently added — the tail), the incoming-only drain's first
cancellation is operation 0, the head of the set, not the tail element 1:
the drain does not select most-recently-added first. -/
theorem C6_counterexample :
    (gb_connection_flush_incoming_operations (-ESHUTDOWN)
        [⟨0, true⟩, ⟨1, true⟩]).2.head? =
      some (Event.cancelOp 0 true (-ESHUTDOWN)) ∧
    ([⟨0, true⟩, ⟨1, true⟩] : List Operation).getLast? = some ⟨1, true⟩ ∧
    Event.cancelOp 0 true (-ESHUTDOWN) ≠ Event.cancelOp 1 true (-ESHUTDOWN) := by
  refine ⟨?_, by decide, by decide⟩
  rw [gb_connection_flush_spec]
  decide

/-- C6 amended: the full cancel used by `disable` selects from the tail
(most-recently-added first, i.e. reverse insertion order), while the
incoming-only drain used by `disable_rx` scans from the head and cancels the
incoming operations oldest-first (insertion order). -/
theorem C6_cancellation_orders (errno : Int) (ops : List Operation) :
    (gb_connection_cancel_operations errno ops).2 =
      ops.reverse.map (fun o => Event.cancelOp o.id o.incoming errno) ∧
    (gb_connection_flush_incoming_operations errno ops).2 =
      (ops.filter (fun o => o.incoming)).map
        (fun o => Event.cancelOp o.id o.incoming errno) := by
  constructor
  · rw [gb_connection_cancel_spec]
  · rw [gb_connection_flush_spec]

/-- C2: `disable` from any non-Disabled state notifies the peer control
channel first, then cancels every pending operation (both directions) with
the shutdown error while clearing the handler and forcing the state to
Disabled, then asks the coordinator to destroy the route (skipped for
static), then disables the transport channel — in exactly that trace order;
from Disabled it is a no-op, and from any state it ends Disabled. -/
theorem C2_disable_order (env : Env) (c : Connection) :
    (gb_connection_disable env c).1.state = ConnState.Disabled ∧
    (c.state = ConnState.Disabled → gb_connection_disable env c = (c, [])) ∧
    (c.state ≠ ConnState.Disabled →
      (gb_connection_disable env c).1.handler = none ∧
      (gb_connection_disable env c).1.operations = [] ∧
      (gb_connection_disable env c).2 =
        gb_connection_control_disconnected env c ++
          c.operations.reverse.map
            (fun o => Event.cancelOp o.id o.incoming (-ESHUTDOWN)) ++
          (if gb_connection_is_static c then [] else [Event.svcDestroy]) ++
          [Event.cportDisable]) := by
  by_cases h : c.state = ConnState.Disabled
  · refine ⟨?_, fun _ => ?_, fun hne => absurd h hne⟩
    · unfold gb_connection_disable
      rw [if_pos h]
      exact h
    · unfold gb_connection_disable
      rw [if_pos h]
  · refine ⟨?_, fun hc => absurd hc h, fun _ => ?_⟩ <;>
      unfold gb_connection_disable <;> rw [if_neg h] <;>
      simp only [gb_connection_cancel_spec, gb_connection_svc_connection_destroy,
        gb_connection_hd_cport_disable, gb_connection_is_static] <;>
      by_cases hs : c.intf.isNone = true <;>
      simp [hs]

/-- Witness for C2: disabling a live dynamic connection with two pending
operations produces exactly notify, the two cancellations (most recent
first), route destroy, transport disable, and ends Disabled. -/
theorem C2_disable_order_witness :
    (gb_connection_disable envOk sampleEnabled).1.state = ConnState.Disabled ∧
    (gb_connection_disable envOk sampleEnabled).2 =
      [Event.controlDisconnected, Event.cancelOp 1 false (-ESHUTDOWN),
       Event.cancelOp 0 true (-ESHUTDOWN), Event.svcDestroy,
       Event.cportDisable] := by
  refine ⟨(C2_disable_order envOk sampleEnabled).1, ?_⟩
  have h := ((C2_disable_order envOk sampleEnabled).2.2 (by decide)).2.2
  rw [h]
  decide

/-- C1: `enable` is all-or-nothing.  Starting from a quiescent Disabled
connection (no handler, transport channel down, no coordinator route — the
Disabled-state invariant), any failing enable — at the transport step, the
coordinator-create step, or the peer-connected step — returns with the state
still Disabled (never Enabled-Tx or Enabled), the handler cleared, the
transport channel disabled again, and no coordinator route left behind. -/
theorem C1_enable_all_or_nothing (env : Env) (c : Connection)
    (handler : Option Nat)
    (hstate : c.state = ConnState.Disabled)
    (hhandler : c.handler = none)
    (hcport : c.hdCportEnabled = false)
    (hroute : c.svcRouteCreated = false) :
    (gb_connection_enable env c handler).2.2 ≠ 0 →
      (gb_connection_enable env c handler).1.state = ConnState.Disabled ∧
      (gb_connection_enable env c handler).1.handler = none ∧
      (gb_connection_enable env c handler).1.hdCportEnabled = false ∧
      (gb_connection_enable env c handler).1.svcRouteCreated = false := by
  intro hfail
  rcases hr : gb_connection_enable env c handler with ⟨c2, tr, ret⟩
  rw [hr] at hfail
  simp only [hr]
  simp only [ne_eq] at hfail
  unfold gb_connection_enable at hr
  rw [if_neg (by simp [hstate]), if_neg (by simp [hstate])] at hr
  by_cases hce : env.cportEnableRet = 0
  · simp only [gb_connection_hd_cport_enable, hce, if_true, eq_self_iff_true,
      ite_true] at hr
    by_cases hs : c.intf.isNone = true
    · -- static: the svc and control steps cannot fail, enable succeeds
      simp [gb_connection_svc_connection_create, gb_connection_is_static,
        gb_connection_control_connected, hs, Prod.mk.injEq] at hr
      obtain ⟨h1, h2, h3⟩ := hr
      subst h3
      simp at hfail
    · by_cases hsvc : env.svcCreateRet = 0
      · by_cases hctl : c.isControlConnection = true
        · -- control connection: peer-notify skipped, enable succeeds
          simp [gb_connection_svc_connection_create, gb_connection_is_static,
            gb_connection_control_connected, hs, hsvc, hctl,
            Prod.mk.injEq] at hr
          obtain ⟨h1, h2, h3⟩ := hr
          subst h3
          simp at hfail
        · by_cases hcc : env.controlConnectedRet = 0
          · -- all three layers up: enable succeeds
            simp [gb_connection_svc_connection_create, gb_connection_is_static,
              gb_connection_control_connected, hs, hsvc, hctl, hcc,
              Prod.mk.injEq] at hr
            obtain ⟨h1, h2, h3⟩ := hr
            subst h3
            simp at hfail
          · -- peer-connected fails: reverse-order cleanup
            simp [gb_connection_svc_connection_create, gb_connection_is_static,
              gb_connection_control_connected, gb_connection_cancel_spec,
              gb_connection_svc_connection_destroy,
              gb_connection_hd_cport_disable, hs, hsvc, hctl, hcc,
              Prod.mk.injEq] at hr
            obtain ⟨h1, h2, h3⟩ := hr
            subst h1
            simp
      · -- coordinator-create fails: transport channel disabled again
        simp [gb_connection_svc_connection_create, gb_connection_is_static,
          gb_connection_hd_cport_disable, hs, hsvc, Prod.mk.injEq] at hr
        obtain ⟨h1, h2, h3⟩ := hr
        subst h1
        simp [hstate, hhandler, hroute]
  · -- transport enable fails: nothing to roll back
    simp [gb_connection_hd_cport_enable, hce, Prod.mk.injEq] at hr
    obtain ⟨h1, h2, h3⟩ := hr
    subst h1
    simp [hstate, hhandler, hcport, hroute]

/-- A dynamic connection in the quiescent Disabled state. -/
def sampleDisabledDyn : Connection :=
  { hd_cport_id := 2, intf_cport_id := 3, intf := some 1, bundle := some 4,
    isControlConnection := false, state := ConnState.Disabled, handler := none,
    operations := [], hdCportEnabled := false, svcRouteCreated := false,
    name := "2/1:3" }

/-- An environment whose coordinator-create call fails with -EINVAL. -/
def envSvcFail : Env :=
  { cportEnableRet := 0, svcCreateRet := -22, controlConnectedRet := 0,
    controlDisconnectedRet := 0 }

/-- Witness for C1: a coordinator-create failure during enable leaves the
concrete connection Disabled with everything rolled back. -/
theorem C1_enable_all_or_nothing_witness :
    (gb_connection_enable envSvcFail sampleDisabledDyn (some 9)).2.2 ≠ 0 ∧
    ((gb_connection_enable envSvcFail sampleDisabledDyn (some 9)).1.state
        = ConnState.Disabled ∧
     (gb_connection_enable envSvcFail sampleDisabledDyn (some 9)).1.handler
        = none ∧
     (gb_connection_enable envSvcFail sampleDisabledDyn (some 9)).1.hdCportEnabled
        = false ∧
     (gb_connection_enable envSvcFail sampleDisabledDyn (some 9)).1.svcRouteCreated
        = false) :=
  ⟨by decide,
   C1_enable_all_or_nothing envSvcFail sampleDisabledDyn (some 9)
     rfl rfl rfl rfl (by decide)⟩

/-- The trace of a non-trivial `disable`: notify, cancellations (most recent
first), route destroy (unless static), transport disable. -/
theorem gb_connection_disable_trace (env : Env) (c : Connection)
    (h : c.state ≠ ConnState.Disabled) :
    (gb_connection_disable env c).2 =
      gb_connection_control_disconnected env c ++
        c.operations.reverse.map
          (fun o => Event.cancelOp o.id o.incoming (-ESHUTDOWN)) ++
        (if gb_connection_is_static c then [] else [Event.svcDestroy]) ++
        [Event.cportDisable] := by
  unfold gb_connection_disable
  rw [if_neg h]
  simp only [gb_connection_cancel_spec, gb_connection_svc_connection_destroy,
    gb_connection_hd_cport_disable, gb_connection_is_static]
  by_cases hs : c.intf.isNone = true <;> simp [hs]

/-- C8: static connections skip the coordinator create/destroy calls and the
peer connected/disconnected notifications entirely, in the helpers and hence
in any `enable`/`disable` trace; for an interface's own control connection
the peer notifications are skipped while the coordinator calls still happen
(enable reaches the coordinator whenever the transport step succeeds, and
any non-trivial disable destroys the route). -/
theorem C8_static_and_control_skips (env : Env) (c : Connection)
    (handler : Option Nat) :
    (gb_connection_is_static c = true →
      gb_connection_svc_connection_create env c = (c, [], 0) ∧
      gb_connection_svc_connection_destroy c = (c, []) ∧
      gb_connection_control_connected env c = ([], 0) ∧
      gb_connection_control_disconnected env c = [] ∧
      Event.svcCreate ∉ (gb_connection_enable env c handler).2.1 ∧
      Event.controlConnected ∉ (gb_connection_enable env c handler).2.1 ∧
      Event.svcDestroy ∉ (gb_connection_disable env c).2 ∧
      Event.controlDisconnected ∉ (gb_connection_disable env c).2) ∧
    (gb_connection_is_static c = false → c.isControlConnection = true →
      gb_connection_control_connected env c = ([], 0) ∧
      gb_connection_control_disconnected env c = [] ∧
      Event.controlConnected ∉ (gb_connection_enable env c handler).2.1 ∧
      Event.controlDisconnected ∉ (gb_connection_disable env c).2 ∧
      (c.state = ConnState.Disabled → env.cportEnableRet = 0 →
        Event.svcCreate ∈ (gb_connection_enable env c handler).2.1) ∧
      (c.state ≠ ConnState.Disabled →
        Event.svcDestroy ∈ (gb_connection_disable env c).2)) := by
  constructor
  · intro hs
    have hs2 : c.intf.isNone = true := by
      simpa [gb_connection_is_static] using hs
    have henable : ∀ e ∈ (gb_connection_enable env c handler).2.1,
        e = Event.cportEnable ∨ e = Event.diagnostic := by
      unfold gb_connection_enable
      by_cases h1 : c.state = ConnState.Enabled
      · simp [h1]
      · rw [if_neg h1]
        by_cases h2 : c.state = ConnState.EnabledTx
        · rw [if_pos h2]
          cases handler <;> simp
        · rw [if_neg h2]
          by_cases hce : env.cportEnableRet = 0
          · simp [gb_connection_hd_cport_enable,
              gb_connection_svc_connection_create,
              gb_connection_control_connected, gb_connection_is_static,
              hs2, hce]
          · simp [gb_connection_hd_cport_enable, hce]
    have hdistrace : ∀ e ∈ (gb_connection_disable env c).2,
        e = Event.cportDisable ∨ ∃ i b er, e = Event.cancelOp i b er := by
      by_cases h1 : c.state = ConnState.Disabled
      · unfold gb_connection_disable
        simp [h1]
      · intro e he
        rw [gb_connection_disable_trace env c h1] at he
        simp only [gb_connection_control_disconnected,
          gb_connection_is_static, hs2, if_true, List.nil_append,
          List.mem_append] at he
        rcases he with (he | he) | he
        · obtain ⟨o, _, rfl⟩ := List.mem_map.mp he
          exact Or.inr ⟨o.id, o.incoming, -ESHUTDOWN, rfl⟩
        · simp [gb_connection_is_static, hs2] at he
        · simp at he
          exact Or.inl he
    refine ⟨by simp [gb_connection_svc_connection_create,
        gb_connection_is_static, hs2],
      by simp [gb_connection_svc_connection_destroy,
        gb_connection_is_static, hs2],
      by simp [gb_connection_control_connected,
        gb_connection_is_static, hs2],
      by simp [gb_connection_control_disconnected,
        gb_connection_is_static, hs2], ?_, ?_, ?_, ?_⟩
    · intro hmem
      rcases henable Event.svcCreate hmem with h | h <;> simp at h
    · intro hmem
      rcases henable Event.controlConnected hmem with h | h <;> simp at h
    · intro hmem
      rcases hdistrace Event.svcDestroy hmem with h | ⟨i, b, er, h⟩ <;> simp at h
    · intro hmem
      rcases hdistrace Event.controlDisconnected hmem with h | ⟨i, b, er, h⟩ <;>
        simp at h
  · intro hs hctl
    have hs2 : c.intf.isNone = false := by
      simpa [gb_connection_is_static] using hs
    have henable : ∀ e ∈ (gb_connection_enable env c handler).2.1,
        e ≠ Event.controlConnected := by
      unfold gb_connection_enable
      by_cases h1 : c.state = ConnState.Enabled
      · simp [h1]
      · rw [if_neg h1]
        by_cases h2 : c.state = ConnState.EnabledTx
        · rw [if_pos h2]
          cases handler <;> simp
        · rw [if_neg h2]
          by_cases hce : env.cportEnableRet = 0
          · by_cases hsvc : env.svcCreateRet = 0
            · simp [gb_connection_hd_cport_enable,
                gb_connection_svc_connection_create,
                gb_connection_control_connected, gb_connection_is_static,
                hs2, hce, hsvc, hctl]
            · simp [gb_connection_hd_cport_enable,
                gb_connection_svc_connection_create,
                gb_connection_is_static, gb_connection_hd_cport_disable,
                hs2, hce, hsvc]
          · simp [gb_connection_hd_cport_enable, hce]
    refine ⟨by simp [gb_connection_control_connected,
        gb_connection_is_static, hs2, hctl],
      by simp [gb_connection_control_disconnected,
        gb_connection_is_static, hs2, hctl], ?_, ?_, ?_, ?_⟩
    · intro hmem
      exact henable Event.controlConnected hmem rfl
    · intro hmem
      by_cases h1 : c.state = ConnState.Disabled
      · unfold gb_connection_disable at hmem
        rw [if_pos h1] at hmem
        simp at hmem
      · rw [gb_connection_disable_trace env c h1] at hmem
        simp [gb_connection_control_disconnected, gb_connection_is_static,
          hs2, hctl] at hmem
    · intro hd0 hce
      unfold gb_connection_enable
      rw [if_neg (by simp [hd0]), if_neg (by simp [hd0])]
      by_cases hsvc : env.svcCreateRet = 0
      · simp [gb_connection_hd_cport_enable,
          gb_connection_svc_connection_create,
          gb_connection_control_connected, gb_connection_is_static,
          hs2, hce, hsvc, hctl]
      · simp [gb_connection_hd_cport_enable,
          gb_connection_svc_connection_create, gb_connection_is_static,
          gb_connection_hd_cport_disable, hs2, hce, hsvc]
    · intro h1
      rw [gb_connection_disable_trace env c h1]
      simp [gb_connection_is_static, hs2]

/-- An interface's own control connection, currently Enabled. -/
def sampleControl : Connection :=
  { hd_cport_id := 0, intf_cport_id := 0, intf := some 1, bundle := none,
    isControlConnection := true, state := ConnState.Enabled, handler := some 7,
    operations := [], hdCportEnabled := true, svcRouteCreated := true,
    name := "0/1:0" }

/-- Witness for C8: a static connection skips the coordinator entirely, a
control connection skips only the peer notification while its disable still
destroys the route. -/
theorem C8_static_and_control_skips_witness :
    gb_connection_svc_connection_create envOk sampleStatic
        = (sampleStatic, [], 0) ∧
    gb_connection_control_connected envOk sampleControl = ([], 0) ∧
    Event.svcDestroy ∈ (gb_connection_disable envOk sampleControl).2 :=
  ⟨((C8_static_and_control_skips envOk sampleStatic none).1 (by decide)).1,
   ((C8_static_and_control_skips envOk sampleControl none).2 (by decide)
      (by decide)).1,
   ((C8_static_and_control_skips envOk sampleControl none).2 (by decide)
      (by decide)).2.2.2.2.2 (by decide)⟩
